import Mathlib

/-!
Verification of the Websters chat-interface frontend: a shallow embedding of
the conversation state machine (`chatReducer` in
`src/chat-interface/src/hooks/use-chat-state.ts`), the query strategies
(`src/chat-interface/src/services/query-strategies.ts`), the API client
(`lib/api`, the 401-handling and the typed operations), and the chat
orchestration handlers (`handleSubmit`, `handleWebSearch` in the
chat-interface component), together with theorems settling the frozen
claims about them.

Conventions of the embedding:
* TypeScript `Date` values and `Date.now()` readings are epoch-millisecond
  naturals (`Nat`).
* Optional TS fields (`field?: T`) are `Option T`; a `Partial<Message>`
  record is a record of `Option` fields where `some v` means the field is
  present in the partial with value `v`.
* `Record<string, unknown>` mappings are association lists
  `List (String × String)`; no claim inspects their values.
* The JS `Set<string>` used for expanded sources is a `Finset String`
  (JS `Set.add`/`Set.delete` semantics; iteration order is not observed).
* The asynchronous `fetch` results are passed in explicitly as a
  `FetchReply` (status, statusText, parsed body), and `localStorage` is the
  explicit two-key `ClientStorage` record; a `throw` becomes an `Except`
  error value, and calling `logout()` becomes a returned `Bool` flag.
-/

namespace Websters

/-- Message role: the `type` field of a chat message (`"user" | "assistant"`). -/
inductive MessageType where
  | user
  | assistant
deriving DecidableEq

/-- A retrieved passage (`SourceNode` in `lib/api`): text, optional metadata
mapping, optional relevance score. -/
structure SourceNode where
  text : String
  metadata : Option (List (String × String))
  score : Option Rat
deriving DecidableEq

/-- Response of the basic / combined query endpoints (`QueryResponse`). -/
structure QueryResponse where
  response : String
  source_nodes : List SourceNode
deriving DecidableEq

/-- Phase-1 local query response (`LocalQueryResponse`). -/
structure LocalQueryResponse where
  response : String
  source_nodes : List SourceNode
  metadata_context : List (String × String)
  web_search_eligible : Bool
  preferred_sources : Option (List String)
  suggested_search_context : Option String
  message_id : Option String
deriving DecidableEq

/-- A single web search hit in a phase-2 response. -/
structure WebSearchHit where
  title : String
  link : String
  snippet : String
  position : Nat
deriving DecidableEq

/-- Phase-2 web-enrichment response (`WebEnrichmentResponse`). -/
structure WebEnrichmentResponse where
  synthesized_keywords : List String
  web_search_results : List WebSearchHit
  enriched_response : String
  sources_fetched : Nat
deriving DecidableEq

/-- Health endpoint response (`HealthResponse`). -/
structure HealthResponse where
  status : String
  index_loaded : Bool
  index_path_exists : Option Bool
  version : Option String
deriving DecidableEq

/-- The user-selectable query mode (`QueryMode = 'basic' | 'combined' | 'enhanced'`). -/
inductive QueryMode where
  | basic
  | combined
  | enhanced
deriving DecidableEq

/-- A chat message (`Message` in `use-chat-state.ts`). `timestamp` is the
epoch-millisecond reading of the `new Date()` at creation. -/
structure Message where
  id : String
  type : MessageType
  content : String
  timestamp : Nat
  sources : Option (List SourceNode)
  enhancedResponse : Option LocalQueryResponse
  webSearchResponse : Option WebEnrichmentResponse
  isWebSearchLoading : Option Bool
  showWebSearchButton : Option Bool
deriving DecidableEq

/-- A `Partial<Message>` record: each field is `some v` when the partial
names that field with value `v`, `none` when the field is absent. -/
structure MessageUpdate where
  id : Option String
  type : Option MessageType
  content : Option String
  timestamp : Option Nat
  sources : Option (Option (List SourceNode))
  enhancedResponse : Option (Option LocalQueryResponse)
  webSearchResponse : Option (Option WebEnrichmentResponse)
  isWebSearchLoading : Option (Option Bool)
  showWebSearchButton : Option (Option Bool)
deriving DecidableEq

/-- The empty partial record `{}`. -/
def emptyUpdate : MessageUpdate :=
  { id := none, type := none, content := none, timestamp := none,
    sources := none, enhancedResponse := none, webSearchResponse := none,
    isWebSearchLoading := none, showWebSearchButton := none }

/-- The TS object spread `{ ...msg, ...updates }`: every field present in
`updates` overrides the corresponding field of `msg`. -/
def applyUpdate (msg : Message) (updates : MessageUpdate) : Message :=
  { id := updates.id.getD msg.id,
    type := updates.type.getD msg.type,
    content := updates.content.getD msg.content,
    timestamp := updates.timestamp.getD msg.timestamp,
    sources := updates.sources.getD msg.sources,
    enhancedResponse := updates.enhancedResponse.getD msg.enhancedResponse,
    webSearchResponse := updates.webSearchResponse.getD msg.webSearchResponse,
    isWebSearchLoading := updates.isWebSearchLoading.getD msg.isWebSearchLoading,
    showWebSearchButton := updates.showWebSearchButton.getD msg.showWebSearchButton }

/-- The `ChatState` held by the reducer in `use-chat-state.ts`. -/
structure ChatState where
  messages : List Message
  input : String
  isLoading : Bool
  error : Option String
  isHealthy : Option Bool
  healthDetails : Option HealthResponse
  expandedSources : Finset String
  queryMode : QueryMode
deriving DecidableEq

/-- The `ChatAction` sum type. The nine named constructors are the nine
recognized action types of the TS union; `unknown tag` stands for a
dispatched action object whose `type` string is none of them (the runtime
case the reducer's `default` branch covers). -/
inductive ChatAction where
  | SET_INPUT (payload : String)
  | SET_LOADING (payload : Bool)
  | SET_ERROR (payload : Option String)
  | SET_HEALTH (isHealthy : Option Bool) (details : Option HealthResponse)
  | SET_QUERY_MODE (payload : QueryMode)
  | ADD_MESSAGE (payload : Message)
  | UPDATE_MESSAGE (id : String) (updates : MessageUpdate)
  | CLEAR_INPUT
  | TOGGLE_SOURCES (payload : String)
  | unknown (tag : String)
deriving DecidableEq

/-- The nine recognized `action.type` strings of the TS `ChatAction` union. -/
def recognizedActionTypes : List String :=
  ["SET_INPUT", "SET_LOADING", "SET_ERROR", "SET_HEALTH", "SET_QUERY_MODE",
   "ADD_MESSAGE", "UPDATE_MESSAGE", "CLEAR_INPUT", "TOGGLE_SOURCES"]

/-- The reducer `chatReducer` of `use-chat-state.ts`, case for case:
spread-updates of single fields, append for `ADD_MESSAGE`, merge-by-id for
`UPDATE_MESSAGE`, set-flip for `TOGGLE_SOURCES`, and the `default` branch
returning the state unchanged. -/
def chatReducer (state : ChatState) (action : ChatAction) : ChatState :=
  match action with
  | .SET_INPUT payload => { state with input := payload }
  | .SET_LOADING payload => { state with isLoading := payload }
  | .SET_ERROR payload => { state with error := payload }
  | .SET_HEALTH h details => { state with isHealthy := h, healthDetails := details }
  | .SET_QUERY_MODE payload => { state with queryMode := payload }
  | .ADD_MESSAGE payload => { state with messages := state.messages ++ [payload] }
  | .UPDATE_MESSAGE id updates =>
      { state with
        messages := state.messages.map fun msg =>
          if msg.id = id then applyUpdate msg updates else msg }
  | .CLEAR_INPUT => { state with input := "" }
  | .TOGGLE_SOURCES payload =>
      { state with
        expandedSources :=
          if payload ∈ state.expandedSources then
            state.expandedSources.erase payload
          else
            insert payload state.expandedSources }
  | .unknown _ => state

/-- The initial reducer state (`initialState` in `use-chat-state.ts`). -/
def initialState : ChatState :=
  { messages := [], input := "", isLoading := false, error := none,
    isHealthy := none, healthDetails := none, expandedSources := ∅,
    queryMode := .enhanced }

/-- Dispatching a list of actions in order through the reducer. -/
def applyActions (state : ChatState) (actions : List ChatAction) : ChatState :=
  List.foldl chatReducer state actions

/-! ### API client (`lib/api`) -/

/-- The persisted client session: the `auth_token` and `user` entries of
`localStorage` (the only keys the client reads or clears). -/
structure ClientStorage where
  auth_token : Option String
  user : Option String
deriving DecidableEq

/-- An error thrown by an API client operation: the distinguished
`AuthenticationError` class, or an ordinary `Error` (transport / non-2xx),
each carrying its message string. -/
inductive ApiError where
  | authentication (msg : String)
  | network (msg : String)
deriving DecidableEq

/-- The result of the awaited `fetch`: HTTP status, status text, and the
body as already parsed into the operation's response type. -/
structure FetchReply (β : Type) where
  status : Nat
  statusText : String
  body : β
deriving DecidableEq

/-- The `Response.ok` predicate of `fetch`: status in the range 200–299. -/
def respOk (status : Nat) : Bool :=
  200 ≤ status && status ≤ 299

/-- The message of the `AuthenticationError` thrown by `handleAuthError`. -/
def authErrorMessage : String := "Authentication failed. Please login again."

/-- `handleAuthError` of `lib/api`: on a 401 status, remove `auth_token` and
`user` from storage and throw `AuthenticationError`; otherwise leave the
storage alone and return normally. -/
def handleAuthError (st : ClientStorage) (status : Nat) :
    ClientStorage × Option ApiError :=
  if status = 401 then
    ({ auth_token := none, user := none }, some (.authentication authErrorMessage))
  else
    (st, none)

/-- The endpoint selected by `api.query`'s `useWebSearch` flag. -/
def queryEndpoint (useWebSearch : Bool) : String :=
  if useWebSearch then "/query-combined" else "/query"

/-- `api.query`: POST to `/query` or `/query-combined`; run `handleAuthError`
on the reply, then fail on non-ok status, else return the parsed body. The
final storage and the thrown-or-returned outcome are made explicit. -/
def api.query (st : ClientStorage) (useWebSearch : Bool)
    (reply : FetchReply QueryResponse) :
    ClientStorage × Except ApiError QueryResponse :=
  let _endpoint := queryEndpoint useWebSearch
  match handleAuthError st reply.status with
  | (st1, some e) => (st1, .error e)
  | (st1, none) =>
      if respOk reply.status then (st1, .ok reply.body)
      else (st1, .error (.network ("Query failed: " ++ reply.statusText)))

/-- `api.queryEnhanced`: POST to `/query-local` (phase 1); same 401 and
non-ok handling as `api.query`, with its own error prefix. -/
def api.queryEnhanced (st : ClientStorage) (reply : FetchReply LocalQueryResponse) :
    ClientStorage × Except ApiError LocalQueryResponse :=
  match handleAuthError st reply.status with
  | (st1, some e) => (st1, .error e)
  | (st1, none) =>
      if respOk reply.status then (st1, .ok reply.body)
      else (st1, .error (.network ("Enhanced query failed: " ++ reply.statusText)))

/-- `api.webSearchExplicit`: POST to `/query-web-enrich` (phase 2); same 401
and non-ok handling, with its own error prefix. -/
def api.webSearchExplicit (st : ClientStorage) (reply : FetchReply WebEnrichmentResponse) :
    ClientStorage × Except ApiError WebEnrichmentResponse :=
  match handleAuthError st reply.status with
  | (st1, some e) => (st1, .error e)
  | (st1, none) =>
      if respOk reply.status then (st1, .ok reply.body)
      else (st1, .error (.network ("Web search failed: " ++ reply.statusText)))

/-- `api.getFilters`: GET `/filters`; same 401 and non-ok handling, with its
own error prefix. The facet mapping body is an association list. -/
def api.getFilters (st : ClientStorage) (reply : FetchReply (List (String × String))) :
    ClientStorage × Except ApiError (List (String × String)) :=
  match handleAuthError st reply.status with
  | (st1, some e) => (st1, .error e)
  | (st1, none) =>
      if respOk reply.status then (st1, .ok reply.body)
      else (st1, .error (.network ("Get filters failed: " ++ reply.statusText)))

/-! ### Query strategies (`query-strategies.ts`) -/

/-- `BasicQueryStrategy.execute`: wrap the `/query` (non-combined) response
into an assistant message; `now` is the `Date.now()` reading at wrap time,
so the id is `(now + 1).toString()` and the timestamp is `now`. -/
def BasicQueryStrategy.execute (now : Nat) (response : QueryResponse) : Message :=
  { id := Nat.repr (now + 1), type := .assistant, content := response.response,
    timestamp := now, sources := some response.source_nodes,
    enhancedResponse := none, webSearchResponse := none,
    isWebSearchLoading := none, showWebSearchButton := none }

/-- `CombinedQueryStrategy.execute`: identical wrapping of the
`/query-combined` response. -/
def CombinedQueryStrategy.execute (now : Nat) (response : QueryResponse) : Message :=
  { id := Nat.repr (now + 1), type := .assistant, content := response.response,
    timestamp := now, sources := some response.source_nodes,
    enhancedResponse := none, webSearchResponse := none,
    isWebSearchLoading := none, showWebSearchButton := none }

/-- `EnhancedQueryStrategy.execute`: wrap the phase-1 response, keeping the
full `LocalQueryResponse` in `enhancedResponse` and setting
`showWebSearchButton` to the response's `web_search_eligible` flag. -/
def EnhancedQueryStrategy.execute (now : Nat) (enhancedResponse : LocalQueryResponse) :
    Message :=
  { id := Nat.repr (now + 1), type := .assistant,
    content := enhancedResponse.response, timestamp := now,
    sources := some enhancedResponse.source_nodes,
    enhancedResponse := some enhancedResponse, webSearchResponse := none,
    isWebSearchLoading := none,
    showWebSearchButton := some enhancedResponse.web_search_eligible }

/-- Tag naming which concrete strategy object the factory returns. -/
inductive StrategyKind where
  | basic
  | combined
  | enhanced
deriving DecidableEq

/-- `QueryStrategyFactory.getStrategy`: look the mode string up in the
three-key strategies record; an unknown mode finds no strategy and throws
`Unknown query mode: ...` (modelled as `Except.error`). -/
def QueryStrategyFactory.getStrategy (mode : String) : Except String StrategyKind :=
  if mode = "basic" then .ok .basic
  else if mode = "combined" then .ok .combined
  else if mode = "enhanced" then .ok .enhanced
  else .error ("Unknown query mode: " ++ mode)

/-! ### Message rendering conditions (`message-item.tsx`) -/

/-- The render condition of the per-message web-search button:
`message.showWebSearchButton && message.enhancedResponse && !message.webSearchResponse`
(JS truthiness: an absent `showWebSearchButton` is falsy). -/
def webSearchButtonVisible (msg : Message) : Bool :=
  msg.showWebSearchButton.getD false
    && msg.enhancedResponse.isSome
    && msg.webSearchResponse.isNone

/-! ### Chat orchestration (`chat-interface` component) -/

/-- JS `String.prototype.trim()`: drop whitespace from both ends. Modelled
structurally over the character list (rather than through `String.trim`,
which is definitionally equivalent but defined by well-founded recursion
and so cannot be evaluated by `decide`). -/
def jsTrim (s : String) : String :=
  String.mk
    (((s.data.dropWhile Char.isWhitespace).reverse.dropWhile Char.isWhitespace).reverse)

/-- The `disabled` condition of the text input:
`isLoading || isHealthy === false`. -/
def inputFieldDisabled (s : ChatState) : Bool :=
  s.isLoading || decide (s.isHealthy = some false)

/-- The `disabled` condition of the send button:
`!input.trim() || isLoading || isHealthy === false`. -/
def sendButtonDisabled (s : ChatState) : Bool :=
  decide (jsTrim s.input = "") || s.isLoading || decide (s.isHealthy = some false)

/-- Whether the form's submit event can fire at all: either the text input
accepts an Enter keypress (it is not disabled) or the send button is
clickable (it is not disabled). -/
def submitEventPossible (s : ChatState) : Bool :=
  !inputFieldDisabled s || !sendButtonDisabled s

/-- The optimistic user message built by `handleSubmit`: id is
`Date.now().toString()`, content is the trimmed input, timestamp the same
clock reading. -/
def mkUserMessage (now : Nat) (input : String) : Message :=
  { id := Nat.repr now, type := .user, content := jsTrim input,
    timestamp := now, sources := none, enhancedResponse := none,
    webSearchResponse := none, isWebSearchLoading := none,
    showWebSearchButton := none }

/-- `handleSubmit`, with the awaited strategy outcome passed in as
`result` and the `Date.now()` reading as `now`. Returns the final chat
state, whether `logout()` was called, and whether the strategy was invoked.
Mirrors the source order: guard on empty-trimmed input or `isLoading`;
append the user message; clear input; set loading; clear the error; then on
success append the assistant message, on `AuthenticationError` call
`logout()` and return, on any other error set the error banner — with the
`finally` clause clearing the loading flag on every non-guarded path. -/
def handleSubmit (s : ChatState) (now : Nat) (result : Except ApiError Message) :
    ChatState × Bool × Bool :=
  if jsTrim s.input = "" ∨ s.isLoading = true then
    (s, false, false)
  else
    let userMessage := mkUserMessage now s.input
    let s1 := chatReducer s (.ADD_MESSAGE userMessage)
    let s2 := chatReducer s1 .CLEAR_INPUT
    let s3 := chatReducer s2 (.SET_LOADING true)
    let s4 := chatReducer s3 (.SET_ERROR none)
    match result with
    | .ok assistantMessage =>
        (chatReducer (chatReducer s4 (.ADD_MESSAGE assistantMessage)) (.SET_LOADING false),
         false, true)
    | .error (.authentication _) =>
        (chatReducer s4 (.SET_LOADING false), true, true)
    | .error (.network emsg) =>
        (chatReducer (chatReducer s4 (.SET_ERROR (some emsg))) (.SET_LOADING false),
         false, true)

/-- JS truthiness fallback `x || undefined` on an optional string field:
`null`, `undefined` and `""` all become absent. -/
def stringOrUndefined (v : Option String) : Option String :=
  match v with
  | some str => if str = "" then none else some str
  | none => none

/-- The phase-2 request body `handleWebSearch` sends: original query, the
phase-1 `message_id` and `suggested_search_context` (each `|| undefined`),
the top-level `preferred_sources`, and the fixed `QUERY_SETTINGS.WEB_SEARCH`
parameters (`max_results: 5`, `concise_mode: true`). -/
structure WebEnrichmentRequest where
  query : String
  message_id : Option String
  local_context : Option String
  preferred_sources : Option (List String)
  keywords : Option (List String)
  max_results : Option Nat
  concise_mode : Option Bool
deriving DecidableEq

/-- Construction of the request sent by `api.webSearchExplicit` inside
`handleWebSearch`. -/
def buildWebSearchRequest (originalQuery : String) (enhancedResponse : LocalQueryResponse) :
    WebEnrichmentRequest :=
  { query := originalQuery,
    message_id := stringOrUndefined enhancedResponse.message_id,
    local_context := stringOrUndefined enhancedResponse.suggested_search_context,
    preferred_sources := enhancedResponse.preferred_sources,
    keywords := none,
    max_results := some 5,
    concise_mode := some true }

/-- The awaited outcome of the phase-2 call inside `handleWebSearch`. -/
inductive WebSearchOutcome where
  | success (resp : WebEnrichmentResponse)
  | authFailure (msg : String)
  | otherFailure (msg : String)
deriving DecidableEq

/-- `handleWebSearch`, with the awaited phase-2 outcome passed in. Returns
the final chat state and whether `logout()` was called. Mirrors the source:
first dispatch `UPDATE_MESSAGE(id, { isWebSearchLoading: true })`; on
success dispatch the merge of the result with `isWebSearchLoading: false`
and `showWebSearchButton: false`; on `AuthenticationError` call `logout()`
and return; on any other error set the scoped error banner and dispatch
`UPDATE_MESSAGE(id, { isWebSearchLoading: false })`. -/
def handleWebSearch (s : ChatState) (messageId : String) (outcome : WebSearchOutcome) :
    ChatState × Bool :=
  let s1 := chatReducer s
    (.UPDATE_MESSAGE messageId { emptyUpdate with isWebSearchLoading := some (some true) })
  match outcome with
  | .success resp =>
      (chatReducer s1
        (.UPDATE_MESSAGE messageId
          { emptyUpdate with
            webSearchResponse := some (some resp),
            isWebSearchLoading := some (some false),
            showWebSearchButton := some (some false) }), false)
  | .authFailure _ => (s1, true)
  | .otherFailure emsg =>
      let s2 := chatReducer s1 (.SET_ERROR (some ("Web search failed: " ++ emsg)))
      (chatReducer s2
        (.UPDATE_MESSAGE messageId
          { emptyUpdate with isWebSearchLoading := some (some false) }), false)

/-! ### Message-creation traces (for the id-uniqueness claim)

Through the orchestration flow, messages enter the conversation in exactly
two ways: `handleSubmit` appends `mkUserMessage t input` at submission time
`t`, and appends a strategy-built assistant message when the response
arrives at time `t`. A trace lists these creation events with their
`Date.now()` readings. -/

/-- One message-creation event of the orchestration flow. -/
inductive MsgEvent where
  | userSubmit (t : Nat) (input : String)
  | basicResolve (t : Nat) (response : QueryResponse)
  | combinedResolve (t : Nat) (response : QueryResponse)
  | enhancedResolve (t : Nat) (response : LocalQueryResponse)
deriving DecidableEq

/-- The clock reading of an event. -/
def MsgEvent.time : MsgEvent → Nat
  | .userSubmit t _ => t
  | .basicResolve t _ => t
  | .combinedResolve t _ => t
  | .enhancedResolve t _ => t

/-- The message the event appends to the conversation. -/
def MsgEvent.message : MsgEvent → Message
  | .userSubmit t input => mkUserMessage t input
  | .basicResolve t r => BasicQueryStrategy.execute t r
  | .combinedResolve t r => CombinedQueryStrategy.execute t r
  | .enhancedResolve t r => EnhancedQueryStrategy.execute t r

/-- The numeric key the event's message id is rendered from: the clock
reading for a user message, the clock reading plus one for an assistant
message. -/
def MsgEvent.key : MsgEvent → Nat
  | .userSubmit t _ => t
  | .basicResolve t _ => t + 1
  | .combinedResolve t _ => t + 1
  | .enhancedResolve t _ => t + 1

/-- The ordered message history a trace of creation events produces
(each event appends one message). -/
def traceMessages (events : List MsgEvent) : List Message :=
  events.map MsgEvent.message

/-- A trace is chronological when the clock readings never decrease along
it — the reachability condition a single monotone wall clock imposes. -/
abbrev Chronological (events : List MsgEvent) : Prop :=
  List.Chain' (fun a b => a.time ≤ b.time) events

/-- A trace whose consecutive creation events are at least 2ms apart. -/
abbrev GapTwoSpaced (events : List MsgEvent) : Prop :=
  List.Chain' (fun a b => a.time + 2 ≤ b.time) events

/-! ### Decimal value of a digit string

Used to prove that the decimal rendering `Nat.repr` (the `toString` both
message-id constructions go through) is injective. -/

/-- Numeric value of a decimal digit character. -/
def digitVal (c : Char) : Nat := c.toNat - 48

/-- Value of a most-significant-first digit list. -/
def digitsVal (l : List Char) : Nat :=
  List.foldl (fun v c => v * 10 + digitVal c) 0 l

/-! ### Sample data for concrete evaluations -/

/-- A mocked basic/combined backend response. -/
def sampleQueryResponse : QueryResponse :=
  { response := "Answer", source_nodes := [] }

/-- A mocked phase-1 response that is web-search eligible. -/
def sampleLocalResponse : LocalQueryResponse :=
  { response := "Local answer", source_nodes := [], metadata_context := [],
    web_search_eligible := true, preferred_sources := none,
    suggested_search_context := none, message_id := some "srv-1" }

/-- A mocked phase-1 response with `web_search_eligible = false`. -/
def sampleLocalIneligible : LocalQueryResponse :=
  { sampleLocalResponse with web_search_eligible := false }

/-- A mocked phase-2 response. -/
def sampleWebResponse : WebEnrichmentResponse :=
  { synthesized_keywords := [], web_search_results := [],
    enriched_response := "Enriched", sources_fetched := 0 }

/-- A sample user message. -/
def msgUser : Message :=
  { id := "u1", type := .user, content := "What is X", timestamp := 50,
    sources := none, enhancedResponse := none, webSearchResponse := none,
    isWebSearchLoading := none, showWebSearchButton := none }

/-- A sample assistant message produced in enhanced mode, button offered. -/
def msgAssistant : Message :=
  { id := "m1", type := .assistant, content := "Local answer", timestamp := 100,
    sources := some [], enhancedResponse := some sampleLocalResponse,
    webSearchResponse := none, isWebSearchLoading := none,
    showWebSearchButton := some true }

/-- A sample conversation state with one exchange and a non-empty input. -/
def sampleState : ChatState :=
  { messages := [msgUser, msgAssistant], input := "What is Y",
    isLoading := false, error := none, isHealthy := some true,
    healthDetails := none, expandedSources := ∅, queryMode := .enhanced }

/-- A partial record naming the identity fields `id`, `type`, `timestamp`. -/
def hijackUpdate : MessageUpdate :=
  { emptyUpdate with id := some "hijacked", type := some .user, timestamp := some 999 }

/-- The partial record `handleWebSearch` dispatches first:
`{ isWebSearchLoading: true }`. -/
def loadingUpdate : MessageUpdate :=
  { emptyUpdate with isWebSearchLoading := some (some true) }

/-- A chronological trace in which a response arriving at time 1 and a
submission at time 2 render the same message id: the assistant id is
`(1 + 1).toString() = "2"` and the second user id is `(2).toString() = "2"`. -/
def collidingTrace : List MsgEvent :=
  [.userSubmit 0 "hello", .basicResolve 1 sampleQueryResponse, .userSubmit 2 "again"]

/-- A trace with gaps of at least 2ms between creation events. -/
def spacedTrace : List MsgEvent :=
  [.userSubmit 0 "hello", .basicResolve 5 sampleQueryResponse, .userSubmit 10 "again"]

/-! ## Supporting lemmas -/

theorem foldl_digitsVal (l : List Char) (v : Nat) :
    List.foldl (fun v c => v * 10 + digitVal c) v l = v * 10 ^ l.length + digitsVal l := by
  induction l generalizing v with
  | nil => simp [digitsVal]
  | cons c l ih =>
      simp only [List.foldl_cons, List.length_cons, digitsVal]
      rw [ih (v * 10 + digitVal c), ih (0 * 10 + digitVal c)]
      ring

theorem digitsVal_cons (c : Char) (l : List Char) :
    digitsVal (c :: l) = digitVal c * 10 ^ l.length + digitsVal l := by
  have h := foldl_digitsVal l (0 * 10 + digitVal c)
  simp only [digitsVal, List.foldl_cons] at *
  rw [h]
  ring

theorem digitVal_digitChar {d : Nat} (h : d < 10) :
    digitVal (Nat.digitChar d) = d := by
  interval_cases d <;> rfl

theorem digitsVal_toDigitsCore (fuel : Nat) :
    ∀ (n : Nat) (acc : List Char), n < 10 ^ fuel →
      digitsVal (Nat.toDigitsCore 10 fuel n acc) = n * 10 ^ acc.length + digitsVal acc := by
  induction fuel with
  | zero =>
      intro n acc h
      simp only [pow_zero, Nat.lt_one_iff] at h
      subst h
      simp [Nat.toDigitsCore]
  | succ fuel ih =>
      intro n acc h
      by_cases hd : n / 10 = 0
      · have hn : n < 10 := (Nat.div_eq_zero_iff (by norm_num)).mp hd
        rw [Nat.toDigitsCore, if_pos hd, digitsVal_cons,
          digitVal_digitChar (Nat.mod_lt n (by norm_num)), Nat.mod_eq_of_lt hn]
      · have hlt : n / 10 < 10 ^ fuel := by
          rw [Nat.div_lt_iff_lt_mul (by norm_num)]
          calc n < 10 ^ (fuel + 1) := h
          _ = 10 ^ fuel * 10 := by ring
        rw [Nat.toDigitsCore, if_neg hd, ih (n / 10) _ hlt]
        rw [digitsVal_cons, digitVal_digitChar (Nat.mod_lt n (by norm_num))]
        have hdm : 10 * (n / 10) + n % 10 = n := Nat.div_add_mod n 10
        calc
          n / 10 * 10 ^ (Nat.digitChar (n % 10) :: acc).length
              + (n % 10 * 10 ^ acc.length + digitsVal acc)
            = (10 * (n / 10) + n % 10) * 10 ^ acc.length + digitsVal acc := by
              simp only [List.length_cons]; ring
          _ = n * 10 ^ acc.length + digitsVal acc := by rw [hdm]

theorem digitsVal_toDigits (n : Nat) : digitsVal (Nat.toDigits 10 n) = n := by
  have h1 : n < 10 ^ (n + 1) :=
    lt_of_lt_of_le (Nat.lt_pow_self (by norm_num) n)
      (Nat.pow_le_pow_right (by norm_num) (Nat.le_succ n))
  have h2 := digitsVal_toDigitsCore (n + 1) n [] h1
  simpa [Nat.toDigits, digitsVal] using h2

theorem Nat_repr_injective : Function.Injective Nat.repr := by
  intro m n h
  have hlist : Nat.toDigits 10 m = Nat.toDigits 10 n := by
    have hd := congrArg String.data h
    simpa [Nat.repr, List.asString] using hd
  have hv := congrArg digitsVal hlist
  rwa [digitsVal_toDigits, digitsVal_toDigits] at hv

/-! ## Claims -/

/-- Claim C2: the `UPDATE_MESSAGE` transition changes only the message whose
id matches and only the fields named in the partial record: the history
keeps its length, every message at a position whose id differs from the
target is identical before and after, the matching message becomes exactly
the spread `{ ...msg, ...updates }` in which every field the record does not
name is preserved, when no message carries the id the state is returned
unchanged (silent no-op), and every other component of the state is
untouched. -/
theorem chatReducer_update_message_frame (s : ChatState) (mid : String) (u : MessageUpdate) :
    (chatReducer s (.UPDATE_MESSAGE mid u)).messages.length = s.messages.length
    ∧ (∀ (i : Nat) (h1 : i < s.messages.length)
        (h2 : i < (chatReducer s (.UPDATE_MESSAGE mid u)).messages.length),
        ((s.messages.get ⟨i, h1⟩).id ≠ mid →
          (chatReducer s (.UPDATE_MESSAGE mid u)).messages.get ⟨i, h2⟩
            = s.messages.get ⟨i, h1⟩)
        ∧ ((s.messages.get ⟨i, h1⟩).id = mid →
          (chatReducer s (.UPDATE_MESSAGE mid u)).messages.get ⟨i, h2⟩
            = applyUpdate (s.messages.get ⟨i, h1⟩) u))
    ∧ (∀ m : Message,
        (u.id = none → (applyUpdate m u).id = m.id)
        ∧ (u.type = none → (applyUpdate m u).type = m.type)
        ∧ (u.content = none → (applyUpdate m u).content = m.content)
        ∧ (u.timestamp = none → (applyUpdate m u).timestamp = m.timestamp)
        ∧ (u.sources = none → (applyUpdate m u).sources = m.sources)
        ∧ (u.enhancedResponse = none →
            (applyUpdate m u).enhancedResponse = m.enhancedResponse)
        ∧ (u.webSearchResponse = none →
            (applyUpdate m u).webSearchResponse = m.webSearchResponse)
        ∧ (u.isWebSearchLoading = none →
            (applyUpdate m u).isWebSearchLoading = m.isWebSearchLoading)
        ∧ (u.showWebSearchButton = none →
            (applyUpdate m u).showWebSearchButton = m.showWebSearchButton))
    ∧ ((∀ m ∈ s.messages, m.id ≠ mid) → chatReducer s (.UPDATE_MESSAGE mid u) = s)
    ∧ (chatReducer s (.UPDATE_MESSAGE mid u)).input = s.input
    ∧ (chatReducer s (.UPDATE_MESSAGE mid u)).isLoading = s.isLoading
    ∧ (chatReducer s (.UPDATE_MESSAGE mid u)).error = s.error
    ∧ (chatReducer s (.UPDATE_MESSAGE mid u)).isHealthy = s.isHealthy
    ∧ (chatReducer s (.UPDATE_MESSAGE mid u)).healthDetails = s.healthDetails
    ∧ (chatReducer s (.UPDATE_MESSAGE mid u)).expandedSources = s.expandedSources
    ∧ (chatReducer s (.UPDATE_MESSAGE mid u)).queryMode = s.queryMode := by
  refine ⟨?_, ?_, ?_, ?_, rfl, rfl, rfl, rfl, rfl, rfl, rfl⟩
  · simp [chatReducer]
  · intro i h1 h2
    have hget : (chatReducer s (.UPDATE_MESSAGE mid u)).messages.get ⟨i, h2⟩
        = (fun msg => if msg.id = mid then applyUpdate msg u else msg)
            (s.messages.get ⟨i, h1⟩) := by
      simp [chatReducer, List.get_eq_getElem, List.getElem_map]
    constructor
    · intro hne
      rw [hget]
      simp only [List.get_eq_getElem] at hne ⊢
      simp [hne]
    · intro heq
      rw [hget]
      simp only [List.get_eq_getElem] at heq ⊢
      simp [heq]
  · intro m
    exact ⟨fun h => by simp [applyUpdate, h], fun h => by simp [applyUpdate, h],
      fun h => by simp [applyUpdate, h], fun h => by simp [applyUpdate, h],
      fun h => by simp [applyUpdate, h], fun h => by simp [applyUpdate, h],
      fun h => by simp [applyUpdate, h], fun h => by simp [applyUpdate, h],
      fun h => by simp [applyUpdate, h]⟩
  · intro hall
    show { s with
      messages := s.messages.map fun msg =>
        if msg.id = mid then applyUpdate msg u else msg } = s
    have hmap : (s.messages.map fun msg =>
        if msg.id = mid then applyUpdate msg u else msg) = s.messages := by
      have := List.map_congr_left (l := s.messages)
        (f := fun msg => if msg.id = mid then applyUpdate msg u else msg) (g := id)
        (fun m hm => by simp [hall m hm])
      simpa using this
    rw [hmap]

/-- Claim C2 witness: on the sample state no message has id `"zzz"`, so the
update is a silent no-op. -/
theorem chatReducer_update_message_frame_witness :
    chatReducer sampleState (.UPDATE_MESSAGE "zzz" emptyUpdate) = sampleState :=
  (chatReducer_update_message_frame sampleState "zzz" emptyUpdate).2.2.2.1 (by decide)

/-- Claim C5 counterexample: `UPDATE_MESSAGE` merges the partial with an
object spread, so a partial that names `id` (here also `type` and
`timestamp`) does change the targeted message's identity fields: the single
message's id goes from `"m1"` to `"hijacked"`. -/
theorem update_message_changes_id_counterexample :
    (chatReducer { initialState with messages := [msgAssistant] }
        (.UPDATE_MESSAGE "m1" hijackUpdate)).messages.map Message.id = ["hijacked"]
    ∧ ({ initialState with messages := [msgAssistant] } : ChatState).messages.map
        Message.id = ["m1"]
    ∧ (chatReducer { initialState with messages := [msgAssistant] }
        (.UPDATE_MESSAGE "m1" hijackUpdate)).messages.map Message.timestamp = [999]
    ∧ ({ initialState with messages := [msgAssistant] } : ChatState).messages.map
        Message.timestamp = [100] := by
  refine ⟨rfl, rfl, rfl, rfl⟩

/-- Claim C5 (amended): for every partial record that does not name `id`,
`type` or `timestamp` — as at every `UPDATE_MESSAGE` call site in the
repository — the transition leaves every message's identity fields
unchanged. -/
theorem update_message_preserves_identity_fields (s : ChatState) (mid : String)
    (u : MessageUpdate) (hid : u.id = none) (hty : u.type = none)
    (hts : u.timestamp = none) :
    ∀ (i : Nat) (h1 : i < s.messages.length)
      (h2 : i < (chatReducer s (.UPDATE_MESSAGE mid u)).messages.length),
      ((chatReducer s (.UPDATE_MESSAGE mid u)).messages.get ⟨i, h2⟩).id
          = (s.messages.get ⟨i, h1⟩).id
      ∧ ((chatReducer s (.UPDATE_MESSAGE mid u)).messages.get ⟨i, h2⟩).type
          = (s.messages.get ⟨i, h1⟩).type
      ∧ ((chatReducer s (.UPDATE_MESSAGE mid u)).messages.get ⟨i, h2⟩).timestamp
          = (s.messages.get ⟨i, h1⟩).timestamp := by
  intro i h1 h2
  have hget : (chatReducer s (.UPDATE_MESSAGE mid u)).messages.get ⟨i, h2⟩
      = (fun msg => if msg.id = mid then applyUpdate msg u else msg)
          (s.messages.get ⟨i, h1⟩) := by
    simp [chatReducer, List.get_eq_getElem, List.getElem_map]
  rw [hget]
  by_cases hm : (s.messages.get ⟨i, h1⟩).id = mid
  · simp only [List.get_eq_getElem] at hm ⊢
    simp [hm, applyUpdate, hid, hty, hts]
  · simp only [List.get_eq_getElem] at hm ⊢
    simp [hm]

/-- Claim C5 (amended) witness: the loading-flag update `handleWebSearch`
dispatches leaves id, type and timestamp of the targeted message intact. -/
theorem update_message_preserves_identity_fields_witness :
    ((chatReducer sampleState (.UPDATE_MESSAGE "m1" loadingUpdate)).messages.get
        ⟨1, Nat.one_lt_two⟩).id = (sampleState.messages.get ⟨1, Nat.one_lt_two⟩).id
    ∧ ((chatReducer sampleState (.UPDATE_MESSAGE "m1" loadingUpdate)).messages.get
        ⟨1, Nat.one_lt_two⟩).type = (sampleState.messages.get ⟨1, Nat.one_lt_two⟩).type
    ∧ ((chatReducer sampleState (.UPDATE_MESSAGE "m1" loadingUpdate)).messages.get
        ⟨1, Nat.one_lt_two⟩).timestamp
        = (sampleState.messages.get ⟨1, Nat.one_lt_two⟩).timestamp :=
  update_message_preserves_identity_fields sampleState "m1" loadingUpdate
    rfl rfl rfl 1 Nat.one_lt_two Nat.one_lt_two

/-- Claim C8: dispatching any sequence of `ADD_MESSAGE` actions appends
exactly those messages at the end in dispatch order, so the history length
grows by the number of additions; and every reducer action either leaves
the message list untouched, appends exactly one message (`ADD_MESSAGE`), or
maps it in place by id (`UPDATE_MESSAGE`) — no action removes or reorders
messages. -/
theorem add_message_append_only (s : ChatState) (extra : List Message) :
    (applyActions s (extra.map ChatAction.ADD_MESSAGE)).messages = s.messages ++ extra
    ∧ (applyActions s (extra.map ChatAction.ADD_MESSAGE)).messages.length
        = s.messages.length + extra.length
    ∧ ∀ a : ChatAction,
        (chatReducer s a).messages = s.messages
        ∨ (∃ m, a = .ADD_MESSAGE m ∧ (chatReducer s a).messages = s.messages ++ [m])
        ∨ (∃ mid u, a = .UPDATE_MESSAGE mid u ∧
            (chatReducer s a).messages
              = s.messages.map fun msg => if msg.id = mid then applyUpdate msg u else msg) := by
  have happ : ∀ (t : ChatState) (l : List Message),
      (applyActions t (l.map ChatAction.ADD_MESSAGE)).messages = t.messages ++ l := by
    intro t l
    induction l generalizing t with
    | nil => simp [applyActions]
    | cons m rest ih =>
        have hstep : applyActions t ((m :: rest).map ChatAction.ADD_MESSAGE)
            = applyActions (chatReducer t (.ADD_MESSAGE m)) (rest.map ChatAction.ADD_MESSAGE) := by
          simp [applyActions]
        rw [hstep, ih (chatReducer t (.ADD_MESSAGE m))]
        simp [chatReducer]
  refine ⟨happ s extra, ?_, ?_⟩
  · rw [happ s extra]
    simp
  · intro a
    cases a with
    | SET_INPUT payload => exact Or.inl rfl
    | SET_LOADING payload => exact Or.inl rfl
    | SET_ERROR payload => exact Or.inl rfl
    | SET_HEALTH h details => exact Or.inl rfl
    | SET_QUERY_MODE payload => exact Or.inl rfl
    | ADD_MESSAGE payload => exact Or.inr (Or.inl ⟨payload, rfl, rfl⟩)
    | UPDATE_MESSAGE id updates => exact Or.inr (Or.inr ⟨id, updates, rfl, rfl⟩)
    | CLEAR_INPUT => exact Or.inl rfl
    | TOGGLE_SOURCES payload => exact Or.inl rfl
    | unknown tag => exact Or.inl rfl

/-- Claim C9: `TOGGLE_SOURCES` flips exactly the given id's membership in
the expanded-sources set (every other id's membership is unchanged), leaves
every other component of the state untouched, and applying it twice with
the same id returns the state — in particular the set — to its original
value. -/
theorem toggle_sources_flips_and_double_toggle_restores (s : ChatState) (mid : String) :
    ((chatReducer s (.TOGGLE_SOURCES mid)).expandedSources
        = if mid ∈ s.expandedSources then s.expandedSources.erase mid
          else insert mid s.expandedSources)
    ∧ (mid ∈ (chatReducer s (.TOGGLE_SOURCES mid)).expandedSources ↔
        mid ∉ s.expandedSources)
    ∧ (∀ other : String, other ≠ mid →
        (other ∈ (chatReducer s (.TOGGLE_SOURCES mid)).expandedSources ↔
          other ∈ s.expandedSources))
    ∧ chatReducer (chatReducer s (.TOGGLE_SOURCES mid)) (.TOGGLE_SOURCES mid) = s
    ∧ (chatReducer s (.TOGGLE_SOURCES mid)).messages = s.messages
    ∧ (chatReducer s (.TOGGLE_SOURCES mid)).input = s.input
    ∧ (chatReducer s (.TOGGLE_SOURCES mid)).isLoading = s.isLoading
    ∧ (chatReducer s (.TOGGLE_SOURCES mid)).error = s.error
    ∧ (chatReducer s (.TOGGLE_SOURCES mid)).isHealthy = s.isHealthy
    ∧ (chatReducer s (.TOGGLE_SOURCES mid)).healthDetails = s.healthDetails
    ∧ (chatReducer s (.TOGGLE_SOURCES mid)).queryMode = s.queryMode := by
  refine ⟨rfl, ?_, ?_, ?_, rfl, rfl, rfl, rfl, rfl, rfl, rfl⟩
  · by_cases h : mid ∈ s.expandedSources <;>
      simp [chatReducer, h, Finset.mem_erase, Finset.mem_insert]
  · intro other hne
    by_cases h : mid ∈ s.expandedSources <;>
      simp [chatReducer, h, Finset.mem_erase, Finset.mem_insert, hne]
  · by_cases h : mid ∈ s.expandedSources
    · have e1 : chatReducer s (.TOGGLE_SOURCES mid)
          = { s with expandedSources := s.expandedSources.erase mid } := by
        simp [chatReducer, h]
      have h2 : mid ∉ s.expandedSources.erase mid := by simp
      have e2 : chatReducer { s with expandedSources := s.expandedSources.erase mid }
            (.TOGGLE_SOURCES mid)
          = { s with expandedSources := insert mid (s.expandedSources.erase mid) } := by
        simp [chatReducer, h2]
      rw [e1, e2, Finset.insert_erase h]
    · have e1 : chatReducer s (.TOGGLE_SOURCES mid)
          = { s with expandedSources := insert mid s.expandedSources } := by
        simp [chatReducer, h]
      have e2 : chatReducer { s with expandedSources := insert mid s.expandedSources }
            (.TOGGLE_SOURCES mid)
          = { s with expandedSources := (insert mid s.expandedSources).erase mid } := by
        simp [chatReducer]
      rw [e1, e2, Finset.erase_insert h]

/-- Claim C9 witness: toggling `"m1"` on the sample state (where it is not
expanded) adds it, and toggling twice restores the state. -/
theorem toggle_sources_flips_witness :
    ("m1" ∈ (chatReducer sampleState (.TOGGLE_SOURCES "m1")).expandedSources ↔
      "m1" ∉ sampleState.expandedSources)
    ∧ ("u1" ∈ (chatReducer sampleState (.TOGGLE_SOURCES "m1")).expandedSources ↔
      "u1" ∈ sampleState.expandedSources)
    ∧ chatReducer (chatReducer sampleState (.TOGGLE_SOURCES "m1"))
        (.TOGGLE_SOURCES "m1") = sampleState :=
  ⟨(toggle_sources_flips_and_double_toggle_restores sampleState "m1").2.1,
   (toggle_sources_flips_and_double_toggle_restores sampleState "m1").2.2.1 "u1"
     (by decide),
   (toggle_sources_flips_and_double_toggle_restores sampleState "m1").2.2.2.1⟩

/-- Claim C10: the reducer is a total function and sends every action whose
type string is not one of the nine recognized action types to the silent
`default` branch returning the state unchanged; the strategy factory, by
contrast, fails loudly with `Unknown query mode` on every mode outside
`basic` / `combined` / `enhanced`. -/
theorem reducer_default_silent_strategy_fails_loudly :
    (∀ (s : ChatState) (tag : String), tag ∉ recognizedActionTypes →
        chatReducer s (.unknown tag) = s)
    ∧ (∀ mode : String, mode ∉ (["basic", "combined", "enhanced"] : List String) →
        QueryStrategyFactory.getStrategy mode
          = .error ("Unknown query mode: " ++ mode)) := by
  constructor
  · intro s tag _
    rfl
  · intro mode h
    simp only [List.mem_cons, List.not_mem_nil, or_false, not_or] at h
    obtain ⟨h1, h2, h3⟩ := h
    simp [QueryStrategyFactory.getStrategy, h1, h2, h3]

/-- Claim C10 witness: the made-up action type `"FROB"` is ignored while the
factory rejects the made-up mode `"FROB"` with an error. -/
theorem reducer_default_silent_witness :
    chatReducer sampleState (.unknown "FROB") = sampleState
    ∧ QueryStrategyFactory.getStrategy "FROB"
        = .error ("Unknown query mode: " ++ "FROB") :=
  ⟨(reducer_default_silent_strategy_fails_loudly).1 sampleState "FROB" (by decide),
   (reducer_default_silent_strategy_fails_loudly).2 "FROB" (by decide)⟩

/-- Claim C4: the assistant message the enhanced strategy builds from a
phase-1 response carries `showWebSearchButton` equal to the response's
`web_search_eligible` flag; when the flag is `false` the message-item
render condition for the web-search button is `false`, so the action is
never offered for that message. -/
theorem enhanced_button_follows_eligibility (now : Nat) (resp : LocalQueryResponse) :
    (EnhancedQueryStrategy.execute now resp).showWebSearchButton
        = some resp.web_search_eligible
    ∧ (resp.web_search_eligible = false →
        webSearchButtonVisible (EnhancedQueryStrategy.execute now resp) = false) := by
  refine ⟨rfl, ?_⟩
  intro h
  simp [webSearchButtonVisible, EnhancedQueryStrategy.execute, h]

/-- Claim C4 witness: on the ineligible sample phase-1 response the built
message's button flag is `some false` and the button is not rendered. -/
theorem enhanced_button_follows_eligibility_witness :
    (EnhancedQueryStrategy.execute 100 sampleLocalIneligible).showWebSearchButton
        = some sampleLocalIneligible.web_search_eligible
    ∧ webSearchButtonVisible (EnhancedQueryStrategy.execute 100 sampleLocalIneligible)
        = false :=
  ⟨(enhanced_button_follows_eligibility 100 sampleLocalIneligible).1,
   (enhanced_button_follows_eligibility 100 sampleLocalIneligible).2 rfl⟩

/-- Claim C3: `handleWebSearch` on a message id first dispatches
`isWebSearchLoading: true` for that message (visible as the final state of
the abandoned authentication branch); on success it merges the
`WebEnrichmentResult` into the matching message, sets its
`isWebSearchLoading` to `false` and its `showWebSearchButton` to `false`,
leaving the error banner alone; on a non-authentication failure it sets the
scoped error string and resets only the matching message's
`isWebSearchLoading`, leaving `showWebSearchButton` (and every other field)
unchanged so the button stays available for retry. -/
theorem handleWebSearch_branches (s : ChatState) (mid : String) :
    (∀ resp : WebEnrichmentResponse,
        (handleWebSearch s mid (.success resp)).1.messages
            = s.messages.map (fun m => if m.id = mid then
                { m with webSearchResponse := some resp,
                         isWebSearchLoading := some false,
                         showWebSearchButton := some false } else m)
        ∧ (handleWebSearch s mid (.success resp)).1.error = s.error
        ∧ (handleWebSearch s mid (.success resp)).2 = false)
    ∧ (∀ emsg : String,
        (handleWebSearch s mid (.otherFailure emsg)).1.messages
            = s.messages.map (fun m => if m.id = mid then
                { m with isWebSearchLoading := some false } else m)
        ∧ (handleWebSearch s mid (.otherFailure emsg)).1.error
            = some ("Web search failed: " ++ emsg)
        ∧ (handleWebSearch s mid (.otherFailure emsg)).2 = false)
    ∧ (∀ emsg : String,
        (handleWebSearch s mid (.authFailure emsg)).1.messages
            = s.messages.map (fun m => if m.id = mid then
                { m with isWebSearchLoading := some true } else m)
        ∧ (handleWebSearch s mid (.authFailure emsg)).1.error = s.error
        ∧ (handleWebSearch s mid (.authFailure emsg)).2 = true) := by
  refine ⟨?_, ?_, ?_⟩
  · intro resp
    refine ⟨?_, rfl, rfl⟩
    show (s.messages.map _).map _ = _
    rw [List.map_map]
    apply List.map_congr_left
    intro m _
    by_cases hm : m.id = mid
    · simp [Function.comp, hm, applyUpdate, emptyUpdate]
    · simp [Function.comp, hm]
  · intro emsg
    refine ⟨?_, rfl, rfl⟩
    show (s.messages.map _).map _ = _
    rw [List.map_map]
    apply List.map_congr_left
    intro m _
    by_cases hm : m.id = mid
    · simp [Function.comp, hm, applyUpdate, emptyUpdate]
    · simp [Function.comp, hm]
  · intro emsg
    refine ⟨?_, rfl, rfl⟩
    apply List.map_congr_left
    intro m _
    by_cases hm : m.id = mid
    · simp [hm, applyUpdate, emptyUpdate]
    · simp [hm]

/-- Claim C3 witness: on the sample state, a successful phase-2 call merges
the result into the targeted message and a failed one sets the scoped error
and resets only the loading flag. -/
theorem handleWebSearch_branches_witness :
    (handleWebSearch sampleState "m1" (.success sampleWebResponse)).1.messages
        = sampleState.messages.map (fun m => if m.id = "m1" then
            { m with webSearchResponse := some sampleWebResponse,
                     isWebSearchLoading := some false,
                     showWebSearchButton := some false } else m)
    ∧ (handleWebSearch sampleState "m1" (.otherFailure "boom")).1.error
        = some ("Web search failed: " ++ "boom")
    ∧ (handleWebSearch sampleState "m1" (.otherFailure "boom")).1.messages
        = sampleState.messages.map (fun m => if m.id = "m1" then
            { m with isWebSearchLoading := some false } else m) :=
  ⟨((handleWebSearch_branches sampleState "m1").1 sampleWebResponse).1,
   ((handleWebSearch_branches sampleState "m1").2.1 "boom").2.1,
   ((handleWebSearch_branches sampleState "m1").2.1 "boom").1⟩

/-- Claim C7: when the trimmed input is empty, a request is in flight, or
the health check has reported the backend unreachable, no submission goes
through: either both the text input and the send button are disabled so the
submit event cannot fire at all, or `handleSubmit`'s guard returns the
state unchanged with no user message appended and no strategy invoked. In
particular a second submit while `isLoading` holds appends nothing. -/
theorem no_submission_when_blocked (s : ChatState) (now : Nat)
    (result : Except ApiError Message)
    (h : jsTrim s.input = "" ∨ s.isLoading = true ∨ s.isHealthy = some false) :
    submitEventPossible s = false ∨ handleSubmit s now result = (s, false, false) := by
  by_cases hl : s.isLoading = true
  · left
    simp [submitEventPossible, inputFieldDisabled, sendButtonDisabled, hl]
  · rcases h with h | h | h
    · right
      simp [handleSubmit, h]
    · exact absurd h hl
    · left
      simp [submitEventPossible, inputFieldDisabled, sendButtonDisabled, h]

/-- Claim C7 witness: with the sample request in flight (`isLoading`), the
submit event cannot fire or the handler is a no-op. -/
theorem no_submission_when_blocked_witness :
    submitEventPossible { sampleState with isLoading := true } = false
    ∨ handleSubmit { sampleState with isLoading := true } 2000
        (.ok (BasicQueryStrategy.execute 2001 sampleQueryResponse))
        = ({ sampleState with isLoading := true }, false, false) :=
  no_submission_when_blocked { sampleState with isLoading := true } 2000
    (.ok (BasicQueryStrategy.execute 2001 sampleQueryResponse)) (Or.inr (Or.inl rfl))

/-- Claim C1: every protected API operation (`query`, `queryEnhanced`,
`webSearchExplicit`, `getFilters`) reacting to an HTTP 401 clears the
persisted `auth_token` and `user` entries and fails with the distinguished
`AuthenticationError`; when that error reaches `handleSubmit` the handler
reports logout with the error banner left cleared (`null`), and when it
reaches `handleWebSearch` the handler reports logout without writing the
error banner. -/
theorem auth_401_logout_no_banner :
    (∀ (st : ClientStorage) (useWebSearch : Bool) (reply : FetchReply QueryResponse),
        reply.status = 401 →
        api.query st useWebSearch reply
          = (⟨none, none⟩, .error (.authentication authErrorMessage)))
    ∧ (∀ (st : ClientStorage) (reply : FetchReply LocalQueryResponse),
        reply.status = 401 →
        api.queryEnhanced st reply
          = (⟨none, none⟩, .error (.authentication authErrorMessage)))
    ∧ (∀ (st : ClientStorage) (reply : FetchReply WebEnrichmentResponse),
        reply.status = 401 →
        api.webSearchExplicit st reply
          = (⟨none, none⟩, .error (.authentication authErrorMessage)))
    ∧ (∀ (st : ClientStorage) (reply : FetchReply (List (String × String))),
        reply.status = 401 →
        api.getFilters st reply
          = (⟨none, none⟩, .error (.authentication authErrorMessage)))
    ∧ (∀ (s : ChatState) (now : Nat) (emsg : String),
        jsTrim s.input ≠ "" → s.isLoading = false →
        (handleSubmit s now (.error (.authentication emsg))).2.1 = true
        ∧ (handleSubmit s now (.error (.authentication emsg))).1.error = none)
    ∧ (∀ (s : ChatState) (mid : String) (emsg : String),
        (handleWebSearch s mid (.authFailure emsg)).2 = true
        ∧ (handleWebSearch s mid (.authFailure emsg)).1.error = s.error) := by
  refine ⟨?_, ?_, ?_, ?_, ?_, ?_⟩
  · intro st useWebSearch reply h
    simp [api.query, handleAuthError, h]
  · intro st reply h
    simp [api.queryEnhanced, handleAuthError, h]
  · intro st reply h
    simp [api.webSearchExplicit, handleAuthError, h]
  · intro st reply h
    simp [api.getFilters, handleAuthError, h]
  · intro s now emsg h1 h2
    constructor <;> simp [handleSubmit, h1, h2, chatReducer]
  · intro s mid emsg
    exact ⟨rfl, rfl⟩

/-- Claim C1 witness: a 401 reply to `api.query` with a live session clears
both storage keys and raises `AuthenticationError`; fed to the handlers on
the sample state, logout is reported and no banner is written. -/
theorem auth_401_logout_no_banner_witness :
    api.query ⟨some "tok", some "alice"⟩ false
        ⟨401, "Unauthorized", sampleQueryResponse⟩
      = (⟨none, none⟩, .error (.authentication authErrorMessage))
    ∧ (handleSubmit sampleState 2000 (.error (.authentication authErrorMessage))).2.1
        = true
    ∧ (handleSubmit sampleState 2000 (.error (.authentication authErrorMessage))).1.error
        = none
    ∧ (handleWebSearch sampleState "m1" (.authFailure authErrorMessage)).2 = true :=
  ⟨auth_401_logout_no_banner.1 ⟨some "tok", some "alice"⟩ false
      ⟨401, "Unauthorized", sampleQueryResponse⟩ rfl,
   (auth_401_logout_no_banner.2.2.2.2.1 sampleState 2000 authErrorMessage
      (by decide) rfl).1,
   (auth_401_logout_no_banner.2.2.2.2.1 sampleState 2000 authErrorMessage
      (by decide) rfl).2,
   (auth_401_logout_no_banner.2.2.2.2.2 sampleState "m1" authErrorMessage).1⟩

/-- Claim C6 counterexample: both id constructions stringify `Date.now()`
readings (user: `t`, assistant: `t + 1`), so ids are not guaranteed
pairwise distinct in every reachable conversation: in the chronological
trace submit-at-0, response-at-1, submit-at-2 the assistant message and the
second user message both get id `"2"`. -/
theorem message_ids_collide_counterexample :
    Chronological collidingTrace
    ∧ (traceMessages collidingTrace).map Message.id = ["0", "2", "2"]
    ∧ ¬ (traceMessages collidingTrace).Pairwise (fun a b => a.id ≠ b.id) := by
  refine ⟨List.chain'_cons.mpr ⟨by decide, List.chain'_cons.mpr
    ⟨by decide, List.chain'_singleton _⟩⟩, by decide, by decide⟩

/-- Claim C6 (amended): in every message-creation trace of the
orchestration flow whose consecutive creation events are at least 2ms of
clock time apart, the derived numeric keys strictly increase, so the
rendered message identifiers are pairwise distinct. -/
theorem message_ids_distinct_of_spacing (events : List MsgEvent)
    (h : GapTwoSpaced events) :
    (traceMessages events).Pairwise (fun a b => a.id ≠ b.id) := by
  have hkey : List.Chain' (fun a b : MsgEvent => a.key < b.key) events := by
    refine List.Chain'.imp ?_ h
    intro a b hab
    have h1 : a.key ≤ a.time + 1 := by cases a <;> simp [MsgEvent.key, MsgEvent.time]
    have h2 : b.time ≤ b.key := by cases b <;> simp [MsgEvent.key, MsgEvent.time]
    omega
  have hmapchain : List.Chain' (fun x y : Nat => x < y) (events.map MsgEvent.key) :=
    (List.chain'_map MsgEvent.key).mpr hkey
  have hmappair : List.Pairwise (fun x y : Nat => x < y) (events.map MsgEvent.key) :=
    List.chain'_iff_pairwise.mp hmapchain
  have hpair : List.Pairwise (fun a b : MsgEvent => a.key < b.key) events :=
    List.pairwise_map.mp hmappair
  have hid : ∀ e : MsgEvent, (MsgEvent.message e).id = Nat.repr e.key := by
    intro e
    cases e <;> rfl
  rw [traceMessages, List.pairwise_map]
  refine hpair.imp ?_
  intro a b hlt heq
  rw [hid a, hid b] at heq
  exact absurd (Nat_repr_injective heq) (Nat.ne_of_lt hlt)

/-- Claim C6 (amended) witness: the spaced trace submit-at-0, response-at-5,
submit-at-10 satisfies the spacing hypothesis and its message ids are
pairwise distinct. -/
theorem message_ids_distinct_of_spacing_witness :
    GapTwoSpaced spacedTrace
    ∧ (traceMessages spacedTrace).Pairwise (fun a b => a.id ≠ b.id) :=
  ⟨List.chain'_cons.mpr ⟨by decide, List.chain'_cons.mpr
    ⟨by decide, List.chain'_singleton _⟩⟩,
   message_ids_distinct_of_spacing spacedTrace
    (List.chain'_cons.mpr ⟨by decide, List.chain'_cons.mpr
      ⟨by decide, List.chain'_singleton _⟩⟩)⟩

end Websters
